import Mathlib

set_option maxHeartbeats 1000000

set_option maxRecDepth 10000

/-
Verification development for the CR95HF NFC/RFID transceiver driver
(CR95HF.h / CR95HF.cpp).

Modelling conventions:
- Machine bytes (uint8_t) are Nat values; where the C++ code truncates a
  wider value into a uint8_t parameter, the model applies % 256 explicitly.
- The serial port is modelled, for readResponse, as a list of
  (arrivalTimeMs, byteValue) pairs: the byte becomes available at its
  arrival time (measured from the start of the readResponse call, whose
  millis() snapshot is taken once at entry).  The busy-wait poll loop is
  assumed to poll many times per millisecond, so a byte whose arrival time
  is at most the timeout is read, and a byte arriving strictly later makes
  the unavailability branch observe an elapsed time exceeding the timeout
  and fail, exactly as the shared-budget checks in CR95HF.cpp lines 91-130.
- For the discovery state machine (iso14443aGetUID and its helpers), each
  radio exchange (frame sent + readResponse) is abstracted by an Env field
  holding the decoded outcome of that exchange: none when readResponse
  returned false (timeout), some (code, payload) otherwise.  The frames the
  driver sends are recorded in an explicit trace of Exchange values, with
  the select frames carrying the 5 candidate bytes they embed.
- The caller-supplied uid buffer is modelled as a function Nat → Nat
  (memory cell i holds uid[i]); writes are explicit pointwise updates.
-/

-- ============================================================================
-- Constants from CR95HF.h
-- ============================================================================

def CR95HF_CMD_IDN : Nat := 0x01

def CR95HF_CMD_SENDRECV : Nat := 0x04

def CR95HF_RSP_SUCCESS : Nat := 0x00

def CR95HF_RSP_DATA : Nat := 0x80

def ISO14443A_REQA : Nat := 0x26

def ISO14443A_WUPA : Nat := 0x52

def ISO14443A_CT : Nat := 0x88

def CR95HF_FLAG_SHORTFRAME : Nat := 0x07

-- ============================================================================
-- CR95HF_Frame (CR95HF.h lines 167-308)
-- ============================================================================

/-- Model of the CR95HF_Frame builder: the C++ object holds a fixed
`uint8_t data[32]` array and a fill count `len`; the model keeps the list of
bytes written so far (its length is `len`, and only indices below `len` are
ever read by the driver). -/
structure CR95HF_Frame where
  data : List Nat
deriving DecidableEq

/-- Frame length, the C++ `len` member. -/
def CR95HF_Frame.len (f : CR95HF_Frame) : Nat := f.data.length

/-- C++ `clear()`: reset the fill count to zero. -/
def CR95HF_Frame.clear : CR95HF_Frame := ⟨[]⟩

/-- C++ `add(uint8_t b)`: `if (len < sizeof(data)) data[len++] = b;` — the
byte is appended only while fewer than 32 bytes are stored, and is silently
dropped otherwise.  The `% 256` reflects the uint8_t parameter conversion. -/
def CR95HF_Frame.add (f : CR95HF_Frame) (b : Nat) : CR95HF_Frame :=
  if f.data.length < 32 then ⟨f.data ++ [b % 256]⟩ else f

/-- Iterated add, for the payload-copy loops in the builders. -/
def CR95HF_Frame.addAll (f : CR95HF_Frame) (bs : List Nat) : CR95HF_Frame :=
  bs.foldl CR95HF_Frame.add f

/-- C++ `buildSendRecv(rfData, rfLen, flags)` (CR95HF.h lines 217-225):
clear, add the SendRecv command code, add the length byte `rfLen + 1`,
add each RF data byte, then add the flags byte. -/
def CR95HF_Frame.buildSendRecv (rfData : List Nat) (flags : Nat) : CR95HF_Frame :=
  (((CR95HF_Frame.clear.add CR95HF_CMD_SENDRECV).add (rfData.length + 1)).addAll rfData).add flags

/-- C++ `buildWUPA()` (CR95HF.h lines 243-249). -/
def CR95HF_Frame.buildWUPA : CR95HF_Frame :=
  (((CR95HF_Frame.clear.add CR95HF_CMD_SENDRECV).add 0x02).add ISO14443A_WUPA).add CR95HF_FLAG_SHORTFRAME

/-- C++ `buildREQA()` (CR95HF.h lines 231-237). -/
def CR95HF_Frame.buildREQA : CR95HF_Frame :=
  (((CR95HF_Frame.clear.add CR95HF_CMD_SENDRECV).add 0x02).add ISO14443A_REQA).add CR95HF_FLAG_SHORTFRAME

namespace CR95HF

-- ============================================================================
-- readResponse (CR95HF.cpp lines 91-130)
-- ============================================================================

/-- Payload-reading loop of readResponse (CR95HF.cpp lines 112-121): each of
the `respLen` payload bytes must become available (arrival time at most the
shared timeout, measured from the start of the whole readResponse call);
otherwise the `millis() - start > timeoutMs` branch fires and the call fails.
A stream that ends means the byte never arrives, so the timeout fires. -/
def readPayload (timeoutMs : Nat) : Nat → List (Nat × Nat) → Option (List Nat)
  | 0, _ => some []
  | _ + 1, [] => none
  | n + 1, (t, b) :: rest =>
    if t ≤ timeoutMs then (readPayload timeoutMs n rest).map (fun bs => b :: bs)
    else none

/-- Model of `CR95HF::readResponse(code, buf, len, timeoutMs)`: `millis()` is
snapshotted once at entry (time 0 of the stream clock); the status-code wait
loop, the length-byte wait loop and the payload loop all compare against the
same `start`, so the budget is shared.  `lenIn` is the entry value of the
in/out `len` parameter (the caller buffer capacity); faithfully to the C++
code, it is never consulted before writing.  On success the result is
(status code, payload bytes written to buf, the output value of len). -/
def readResponse (lenIn : Nat) (stream : List (Nat × Nat)) (timeoutMs : Nat) :
    Option (Nat × List Nat × Nat) :=
  match stream with
  | [] => none
  | (t0, code) :: s1 =>
    if t0 ≤ timeoutMs then
      match s1 with
      | [] => none
      | (t1, respLen) :: s2 =>
        if t1 ≤ timeoutMs then
          match readPayload timeoutMs respLen s2 with
          | some bs => some (code, bs, bs.length)
          | none => none
        else none
    else none

-- ============================================================================
-- Discovery state machine (CR95HF.cpp lines 237-420)
-- ============================================================================

/-- Decoded outcome of one readResponse call: status code and payload. -/
abbrev Resp := Nat × List Nat

/-- One radio exchange performed by the driver (frame sent to the CR95HF).
The select exchanges record the 5 candidate bytes embedded in the frame. -/
inductive Exchange where
  | wupa
  | reqa
  | ac1
  | sel1 (cand : List Nat)
  | ac2
  | sel2 (cand : List Nat)
deriving DecidableEq

/-- True for the two wake exchanges. -/
def Exchange.isWake : Exchange → Bool
  | .wupa => true
  | .reqa => true
  | _ => false

/-- True for the two select exchanges. -/
def Exchange.isSelect : Exchange → Bool
  | .sel1 _ => true
  | .sel2 _ => true
  | _ => false

/-- True for the two cascade-level-2 exchanges. -/
def Exchange.isCascade2 : Exchange → Bool
  | .ac2 => true
  | .sel2 _ => true
  | _ => false

/-- Environment of one discovery call: the decoded outcome the serial channel
delivers for each possible exchange (none = readResponse timed out).  Each
exchange happens at most once per call, so one outcome per exchange fully
determines the run. -/
structure Env where
  wupa : Option Resp
  reqa : Option Resp
  ac1 : Option Resp
  sel1 : Option Resp
  ac2 : Option Resp
  sel2 : Option Resp

/-- `CR95HF::sendReqWup` (CR95HF.cpp lines 237-254), given the decoded
outcome of its readResponse: fails unless the status is CR95HF_RSP_DATA and
at least 2 payload bytes arrived; on success yields (buf[0], buf[1]). -/
def sendReqWup : Option Resp → Option (Nat × Nat)
  | none => none
  | some (code, buf) =>
    if code = CR95HF_RSP_DATA ∧ 2 ≤ buf.length then some (buf.getD 0 0, buf.getD 1 0)
    else none

/-- `CR95HF::anticollCL1` (CR95HF.cpp lines 265-275): requires status
CR95HF_RSP_DATA and at least 5 payload bytes, then copies the first 5 bytes
(memcpy(cl1, buf, 5)). -/
def anticollCL1 : Option Resp → Option (List Nat)
  | none => none
  | some (code, buf) =>
    if code = CR95HF_RSP_DATA ∧ 5 ≤ buf.length then some (buf.take 5) else none

/-- `CR95HF::anticollCL2` (CR95HF.cpp lines 304-314): same response handling
as cascade level 1. -/
def anticollCL2 : Option Resp → Option (List Nat)
  | none => none
  | some (code, buf) =>
    if code = CR95HF_RSP_DATA ∧ 5 ≤ buf.length then some (buf.take 5) else none

/-- `CR95HF::selectCL1` (CR95HF.cpp lines 283-293): requires status
CR95HF_RSP_DATA and at least 1 payload byte; yields the SAK byte buf[0]. -/
def selectCL1 : Option Resp → Option Nat
  | none => none
  | some (code, buf) =>
    if code = CR95HF_RSP_DATA ∧ 1 ≤ buf.length then some (buf.getD 0 0) else none

/-- `CR95HF::selectCL2` (CR95HF.cpp lines 322-332): same response handling
as cascade level 1. -/
def selectCL2 : Option Resp → Option Nat
  | none => none
  | some (code, buf) =>
    if code = CR95HF_RSP_DATA ∧ 1 ≤ buf.length then some (buf.getD 0 0) else none

/-- Result of one iso14443aGetUID call: the boolean return value, the caller
uid buffer after the call, the uidLen and sak outputs, the lastATQA member
after the call, and the trace of exchanges performed. -/
structure GetUIDResult where
  ok : Bool
  uid : Nat → Nat
  uidLen : Nat
  sak : Nat
  lastATQA : Nat × Nat
  sent : List Exchange

/-- Pointwise memory update: cell i takes value v. -/
def upd (u : Nat → Nat) (i v : Nat) : Nat → Nat := fun j => if j = i then v else u j

/-- Tail of iso14443aGetUID after a successful cascade-1 select
(CR95HF.cpp lines 382-419): branch on cl1[0] against the cascade tag; the
4-byte branch writes uid[0..3] from cl1 and returns sak1; the cascade branch
first writes uid[0..2] from cl1[1..3], then runs anticollision and select at
level 2, and on success writes uid[3..6] from cl2[0..3] and returns sak2.
uidLen and sakOut keep their entry value 0 on every failing path. -/
def afterSelect1 (env : Env) (uid0 : Nat → Nat) (atqa : Nat × Nat) (tr : List Exchange)
    (cl1 : List Nat) (sak1 : Nat) : GetUIDResult :=
  if cl1.getD 0 0 ≠ ISO14443A_CT then
    ⟨true,
      upd (upd (upd (upd uid0 0 (cl1.getD 0 0)) 1 (cl1.getD 1 0)) 2 (cl1.getD 2 0)) 3 (cl1.getD 3 0),
      4, sak1, atqa, tr⟩
  else
    match anticollCL2 env.ac2 with
    | none =>
      ⟨false, upd (upd (upd uid0 0 (cl1.getD 1 0)) 1 (cl1.getD 2 0)) 2 (cl1.getD 3 0),
        0, 0, atqa, tr ++ [Exchange.ac2]⟩
    | some cl2 =>
      match selectCL2 env.sel2 with
      | none =>
        ⟨false, upd (upd (upd uid0 0 (cl1.getD 1 0)) 1 (cl1.getD 2 0)) 2 (cl1.getD 3 0),
          0, 0, atqa, tr ++ [Exchange.ac2, Exchange.sel2 cl2]⟩
      | some sak2 =>
        ⟨true,
          upd (upd (upd (upd
            (upd (upd (upd uid0 0 (cl1.getD 1 0)) 1 (cl1.getD 2 0)) 2 (cl1.getD 3 0))
            3 (cl2.getD 0 0)) 4 (cl2.getD 1 0)) 5 (cl2.getD 2 0)) 6 (cl2.getD 3 0),
          7, sak2, atqa, tr ++ [Exchange.ac2, Exchange.sel2 cl2]⟩

/-- Middle of iso14443aGetUID after a wake succeeded with ATQA stored
(CR95HF.cpp lines 370-380): cascade-1 anticollision then cascade-1 select;
each helper sends its frame before reading, so its exchange is recorded in
the trace even when the response check fails. -/
def afterWake (env : Env) (uid0 : Nat → Nat) (atqa : Nat × Nat) (tr : List Exchange) :
    GetUIDResult :=
  match anticollCL1 env.ac1 with
  | none => ⟨false, uid0, 0, 0, atqa, tr ++ [Exchange.ac1]⟩
  | some cl1 =>
    match selectCL1 env.sel1 with
    | none => ⟨false, uid0, 0, 0, atqa, tr ++ [Exchange.ac1, Exchange.sel1 cl1]⟩
    | some sak1 => afterSelect1 env uid0 atqa (tr ++ [Exchange.ac1, Exchange.sel1 cl1]) cl1 sak1

/-- `CR95HF::iso14443aGetUID` (CR95HF.cpp lines 352-420): uidLen and sakOut
are zeroed at entry; WUPA is tried first, then REQA as fallback; if neither
yields an ATQA the call fails with lastATQA untouched (the store at lines
367-368 is only reached after a successful wake); otherwise lastATQA takes
the observed ATQA and the cascade sequence runs. -/
def iso14443aGetUID (env : Env) (uid0 : Nat → Nat) (atqa0 : Nat × Nat) : GetUIDResult :=
  match sendReqWup env.wupa with
  | some a => afterWake env uid0 a [Exchange.wupa]
  | none =>
    match sendReqWup env.reqa with
    | some a => afterWake env uid0 a [Exchange.wupa, Exchange.reqa]
    | none => ⟨false, uid0, 0, 0, atqa0, [Exchange.wupa, Exchange.reqa]⟩

/-- Environment with no tag in the field: every exchange times out. -/
def envNoTag : Env := ⟨none, none, none, none, none, none⟩

/-- Incoming stream for the readResponse overflow scenario: status byte 0x80,
length byte 16, then 16 payload bytes, all arriving well inside the budget. -/
def overflowStream : List (Nat × Nat) :=
  [(0, 128), (1, 16), (2, 1), (2, 2), (3, 3), (3, 4), (4, 5), (4, 6), (5, 7), (5, 8),
   (6, 9), (6, 10), (7, 11), (7, 12), (8, 13), (8, 14), (9, 15), (9, 16)]

/-- Single-size tag: WUPA answers, cascade-1 candidate [1,2,3,4,4], SAK 8. -/
def envSingleTag : Env :=
  ⟨some (CR95HF_RSP_DATA, [4, 0]), none, some (CR95HF_RSP_DATA, [1, 2, 3, 4, 4]),
    some (CR95HF_RSP_DATA, [8]), none, none⟩

/-- WUPA answers with a non-data status, REQA succeeds; single-size tag. -/
def envFallbackTag : Env :=
  ⟨some (0x87, []), some (CR95HF_RSP_DATA, [0x44, 0]), some (CR95HF_RSP_DATA, [1, 2, 3, 4, 4]),
    some (CR95HF_RSP_DATA, [8]), none, none⟩

/-- Cascade-1 anticollision answers with data status but only 3 payload bytes. -/
def envShortAnticoll : Env :=
  ⟨some (CR95HF_RSP_DATA, [4, 0]), none, some (CR95HF_RSP_DATA, [1, 2, 3]), none, none, none⟩

/-- Cascade-1 candidate [1,2,3,4,255] whose check byte 255 is not the XOR of
the identifier bytes (XOR of 1, 2, 3, 4 is 4). -/
def envBadBCC : Env :=
  ⟨some (CR95HF_RSP_DATA, [4, 0]), none, some (CR95HF_RSP_DATA, [1, 2, 3, 4, 255]),
    some (CR95HF_RSP_DATA, [8]), none, none⟩

/-- Cascade tag 0x88 in the cascade-1 candidate, but the cascade-2
anticollision exchange times out. -/
def envCascade2Fails : Env :=
  ⟨some (CR95HF_RSP_DATA, [4, 0]), none, some (CR95HF_RSP_DATA, [136, 2, 3, 4, 143]),
    some (CR95HF_RSP_DATA, [8]), none, none⟩

-- ============================================================================
-- Helper lemmas
-- ============================================================================

/-- Reading inside the copied prefix of a list agrees with the list. -/
theorem getD_take_eq (l : List Nat) (n i : Nat) (h : i < n) :
    (l.take n).getD i 0 = l.getD i 0 := by
  induction l generalizing n i with
  | nil => simp
  | cons a t ih =>
    cases n with
    | zero => exact absurd h (Nat.not_lt_zero i)
    | succ n =>
      cases i with
      | zero => simp
      | succ i =>
        simp only [List.take_succ_cons, List.getD_cons_succ]
        exact ih n i (Nat.lt_of_succ_lt_succ h)

/-- If the stream holds the n payload bytes and each arrives within the
shared budget, the payload loop returns exactly those bytes. -/
theorem readPayload_eq (T : Nat) :
    ∀ (n : Nat) (s : List (Nat × Nat)), n ≤ s.length →
      (∀ x ∈ s.take n, x.1 ≤ T) →
      readPayload T n s = some ((s.take n).map Prod.snd) := by
  intro n
  induction n with
  | zero => intro s _ _; simp [readPayload]
  | succ n ih =>
    intro s hlen hall
    cases s with
    | nil => simp at hlen
    | cons x rest =>
      obtain ⟨t, b⟩ := x
      simp only [List.take_succ_cons, List.mem_cons] at hall
      have ht : t ≤ T := hall (t, b) (Or.inl rfl)
      have hrec : readPayload T n rest = some ((rest.take n).map Prod.snd) :=
        ih rest (by simpa using hlen) (fun y hy => hall y (Or.inr hy))
      simp [readPayload, ht, hrec]

/-- The payload loop succeeds exactly when each of the n needed bytes
arrives within the shared budget (given the stream holds them at all). -/
theorem readPayload_isSome (T : Nat) :
    ∀ (n : Nat) (s : List (Nat × Nat)), n ≤ s.length →
      ((readPayload T n s).isSome ↔ ∀ x ∈ s.take n, x.1 ≤ T) := by
  intro n
  induction n with
  | zero => intro s _; simp [readPayload]
  | succ n ih =>
    intro s hlen
    cases s with
    | nil => simp at hlen
    | cons x rest =>
      obtain ⟨t, b⟩ := x
      simp only [readPayload, List.take_succ_cons, List.mem_cons]
      by_cases ht : t ≤ T
      · rw [if_pos ht]
        have hiff := ih rest (by simpa using hlen)
        cases hrp : readPayload T n rest with
        | none =>
          rw [hrp] at hiff
          simp only [Option.map_none', Option.isSome_none, Bool.false_eq_true,
            false_iff] at hiff ⊢
          intro hall
          exact hiff (fun y hy => hall y (Or.inr hy))
        | some bs =>
          rw [hrp] at hiff
          simp only [Option.isSome_some, true_iff] at hiff
          simp only [Option.map_some', Option.isSome_some, true_iff]
          rintro y (rfl | hy)
          · exact ht
          · exact hiff y hy
      · rw [if_neg ht]
        simp only [Option.isSome_none, Bool.false_eq_true, false_iff]
        intro hall
        exact ht (hall (t, b) (Or.inl rfl))

/-- Under a successful wake (direct or by the REQA fallback), the call is
the post-wake sequence with the wake exchanges as the trace prefix. -/
theorem iso_reduces (env : Env) (u0 : Nat → Nat) (a0 a : Nat × Nat)
    (hwake : sendReqWup env.wupa = some a ∨
      (sendReqWup env.wupa = none ∧ sendReqWup env.reqa = some a)) :
    iso14443aGetUID env u0 a0 = afterWake env u0 a [Exchange.wupa] ∨
    iso14443aGetUID env u0 a0 = afterWake env u0 a [Exchange.wupa, Exchange.reqa] := by
  rcases hwake with h | ⟨h1, h2⟩
  · left; simp [iso14443aGetUID, h]
  · right; simp [iso14443aGetUID, h1, h2]

/-- The post-wake sequence appends only non-wake exchanges to the trace and
always performs the cascade-1 anticollision exchange. -/
theorem afterWake_sent_structure (env : Env) (u0 : Nat → Nat) (a : Nat × Nat)
    (tr : List Exchange) :
    ∃ s2, (afterWake env u0 a tr).sent = tr ++ s2 ∧
      (s2.all fun e => !e.isWake) = true ∧ Exchange.ac1 ∈ s2 := by
  cases h1 : anticollCL1 env.ac1 with
  | none => exact ⟨[Exchange.ac1], by simp [afterWake, h1], by decide, by decide⟩
  | some cl1 =>
    cases h2 : selectCL1 env.sel1 with
    | none =>
      exact ⟨[Exchange.ac1, Exchange.sel1 cl1], by simp [afterWake, h1, h2],
        by simp [Exchange.isWake], by simp⟩
    | some sak1 =>
      by_cases hct : cl1.getD 0 0 ≠ ISO14443A_CT
      · refine ⟨[Exchange.ac1, Exchange.sel1 cl1], ?_, by simp [Exchange.isWake], by simp⟩
        simp only [afterWake, h1, h2, afterSelect1]
        rw [if_pos hct]
      · cases h3 : anticollCL2 env.ac2 with
        | none =>
          refine ⟨[Exchange.ac1, Exchange.sel1 cl1, Exchange.ac2], ?_,
            by simp [Exchange.isWake], by simp⟩
          simp only [afterWake, h1, h2, afterSelect1]
          rw [if_neg hct]
          simp [h3]
        | some cl2 =>
          cases h4 : selectCL2 env.sel2 with
          | none =>
            refine ⟨[Exchange.ac1, Exchange.sel1 cl1, Exchange.ac2, Exchange.sel2 cl2], ?_,
              by simp [Exchange.isWake], by simp⟩
            simp only [afterWake, h1, h2, afterSelect1]
            rw [if_neg hct]
            simp [h3, h4]
          | some sak2 =>
            refine ⟨[Exchange.ac1, Exchange.sel1 cl1, Exchange.ac2, Exchange.sel2 cl2], ?_,
              by simp [Exchange.isWake], by simp⟩
            simp only [afterWake, h1, h2, afterSelect1]
            rw [if_neg hct]
            simp [h3, h4]

/-- Once a wake has succeeded, every branch of the remaining sequence stores
the observed ATQA in lastATQA. -/
theorem afterWake_lastATQA (env : Env) (u0 : Nat → Nat) (a : Nat × Nat)
    (tr : List Exchange) :
    (afterWake env u0 a tr).lastATQA = a := by
  cases h1 : anticollCL1 env.ac1 with
  | none => simp [afterWake, h1]
  | some cl1 =>
    cases h2 : selectCL1 env.sel1 with
    | none => simp [afterWake, h1, h2]
    | some sak1 =>
      by_cases hct : cl1.getD 0 0 ≠ ISO14443A_CT
      · simp only [afterWake, h1, h2, afterSelect1]
        rw [if_pos hct]
      · cases h3 : anticollCL2 env.ac2 with
        | none =>
          simp only [afterWake, h1, h2, afterSelect1]
          rw [if_neg hct]
          simp [h3]
        | some cl2 =>
          cases h4 : selectCL2 env.sel2 with
          | none =>
            simp only [afterWake, h1, h2, afterSelect1]
            rw [if_neg hct]
            simp [h3, h4]
          | some sak2 =>
            simp only [afterWake, h1, h2, afterSelect1]
            rw [if_neg hct]
            simp [h3, h4]

/-- Post-wake sequence, 4-byte branch, fully evaluated. -/
theorem afterWake_eq_4byte (env : Env) (u0 : Nat → Nat) (a : Nat × Nat)
    (tr : List Exchange) (p : List Nat) (sak1 : Nat)
    (hac1 : env.ac1 = some (CR95HF_RSP_DATA, p)) (hp : 5 ≤ p.length)
    (hsel1 : selectCL1 env.sel1 = some sak1)
    (hct : p.getD 0 0 ≠ ISO14443A_CT) :
    afterWake env u0 a tr =
      ⟨true,
        upd (upd (upd (upd u0 0 (p.getD 0 0)) 1 (p.getD 1 0)) 2 (p.getD 2 0)) 3 (p.getD 3 0),
        4, sak1, a, tr ++ [Exchange.ac1, Exchange.sel1 (p.take 5)]⟩ := by
  have hA : anticollCL1 env.ac1 = some (p.take 5) := by
    rw [hac1]; simp [anticollCL1, hp]
  have hct2 : (p.take 5).getD 0 0 ≠ ISO14443A_CT := by
    rw [getD_take_eq p 5 0 (by omega)]; exact hct
  simp only [afterWake, hA, hsel1, afterSelect1]
  rw [if_pos hct2, getD_take_eq p 5 0 (by omega), getD_take_eq p 5 1 (by omega),
    getD_take_eq p 5 2 (by omega), getD_take_eq p 5 3 (by omega)]

/-- Post-wake sequence, full two-cascade success branch, fully evaluated. -/
theorem afterWake_eq_7byte (env : Env) (u0 : Nat → Nat) (a : Nat × Nat)
    (tr : List Exchange) (p q : List Nat) (sak1 sak2 : Nat)
    (hac1 : env.ac1 = some (CR95HF_RSP_DATA, p)) (hp : 5 ≤ p.length)
    (hsel1 : selectCL1 env.sel1 = some sak1)
    (hct : p.getD 0 0 = ISO14443A_CT)
    (hac2 : env.ac2 = some (CR95HF_RSP_DATA, q)) (hq : 5 ≤ q.length)
    (hsel2 : selectCL2 env.sel2 = some sak2) :
    afterWake env u0 a tr =
      ⟨true,
        upd (upd (upd (upd
          (upd (upd (upd u0 0 (p.getD 1 0)) 1 (p.getD 2 0)) 2 (p.getD 3 0))
          3 (q.getD 0 0)) 4 (q.getD 1 0)) 5 (q.getD 2 0)) 6 (q.getD 3 0),
        7, sak2, a,
        tr ++ [Exchange.ac1, Exchange.sel1 (p.take 5), Exchange.ac2,
          Exchange.sel2 (q.take 5)]⟩ := by
  have hA : anticollCL1 env.ac1 = some (p.take 5) := by
    rw [hac1]; simp [anticollCL1, hp]
  have hA2 : anticollCL2 env.ac2 = some (q.take 5) := by
    rw [hac2]; simp [anticollCL2, hq]
  have hct2 : ¬((p.take 5).getD 0 0 ≠ ISO14443A_CT) := by
    rw [getD_take_eq p 5 0 (by omega)]; exact fun hne => hne hct
  simp only [afterWake, hA, hsel1, afterSelect1]
  rw [if_neg hct2]
  simp only [hA2, hsel2]
  rw [getD_take_eq p 5 1 (by omega), getD_take_eq p 5 2 (by omega),
    getD_take_eq p 5 3 (by omega), getD_take_eq q 5 0 (by omega),
    getD_take_eq q 5 1 (by omega), getD_take_eq q 5 2 (by omega),
    getD_take_eq q 5 3 (by omega)]
  simp [List.append_assoc]

/-- Post-wake sequence when the cascade tag was seen but cascade level 2
fails: the call fails with uidLen and sak zero, but uid cells 0-2 already
hold bytes 1-3 of the cascade-1 candidate. -/
theorem afterWake_cl2_failure (env : Env) (u0 : Nat → Nat) (a : Nat × Nat)
    (tr : List Exchange) (p : List Nat) (sak1 : Nat)
    (hac1 : env.ac1 = some (CR95HF_RSP_DATA, p)) (hp : 5 ≤ p.length)
    (hsel1 : selectCL1 env.sel1 = some sak1)
    (hct : p.getD 0 0 = ISO14443A_CT)
    (hfail : anticollCL2 env.ac2 = none ∨ selectCL2 env.sel2 = none) :
    (afterWake env u0 a tr).ok = false ∧
    (afterWake env u0 a tr).uidLen = 0 ∧
    (afterWake env u0 a tr).sak = 0 ∧
    (afterWake env u0 a tr).uid =
      upd (upd (upd u0 0 (p.getD 1 0)) 1 (p.getD 2 0)) 2 (p.getD 3 0) := by
  have hA : anticollCL1 env.ac1 = some (p.take 5) := by
    rw [hac1]; simp [anticollCL1, hp]
  have hct2 : ¬((p.take 5).getD 0 0 ≠ ISO14443A_CT) := by
    rw [getD_take_eq p 5 0 (by omega)]; exact fun hne => hne hct
  have hgd : ∀ i, i < 5 → (p.take 5).getD i 0 = p.getD i 0 :=
    fun i hi => getD_take_eq p 5 i hi
  simp only [afterWake, hA, hsel1, afterSelect1]
  rw [if_neg hct2, hgd 1 (by omega), hgd 2 (by omega), hgd 3 (by omega)]
  rcases hfail with hf | hf
  · rw [hf]
    exact ⟨rfl, rfl, rfl, rfl⟩
  · cases h3 : anticollCL2 env.ac2 with
    | none => exact ⟨rfl, rfl, rfl, rfl⟩
    | some cl2 =>
      rw [hf]
      exact ⟨rfl, rfl, rfl, rfl⟩

/-- Once the cascade-1 anticollision yields a candidate, the cascade-1
select frame carrying that candidate is sent on every branch. -/
theorem afterWake_sel1_mem (env : Env) (u0 : Nat → Nat) (a : Nat × Nat)
    (tr : List Exchange) (cl1 : List Nat)
    (hA : anticollCL1 env.ac1 = some cl1) :
    Exchange.sel1 cl1 ∈ (afterWake env u0 a tr).sent := by
  cases h2 : selectCL1 env.sel1 with
  | none => simp [afterWake, hA, h2]
  | some sak1 =>
    by_cases hct : cl1.getD 0 0 ≠ ISO14443A_CT
    · simp only [afterWake, hA, h2, afterSelect1]
      rw [if_pos hct]
      simp
    · cases h3 : anticollCL2 env.ac2 with
      | none =>
        simp only [afterWake, hA, h2, afterSelect1]
        rw [if_neg hct]
        simp [h3]
      | some cl2 =>
        cases h4 : selectCL2 env.sel2 with
        | none =>
          simp only [afterWake, hA, h2, afterSelect1]
          rw [if_neg hct]
          simp [h3, h4]
        | some sak2 =>
          simp only [afterWake, hA, h2, afterSelect1]
          rw [if_neg hct]
          simp [h3, h4]

-- ============================================================================
-- Claims
-- ============================================================================

/-- Claim C1: in every discovery run reaching the cascade-1 candidate, if the
candidate first byte differs from 0x88 then the call succeeds with uidLen 4,
uid bytes 0-3 equal to candidate bytes 0-3 verbatim, sak from the cascade-1
select, and no cascade-2 exchange in the trace; if the first byte is 0x88 and
cascade 2 succeeds, the call succeeds with uidLen 7, uid bytes 0-2 from
candidate-1 bytes 1-3, uid bytes 3-6 from candidate-2 bytes 0-3, and sak from
the cascade-2 select. -/
theorem c1_cascade_branching (env : Env) (u0 : Nat → Nat) (a0 a : Nat × Nat)
    (p q : List Nat) (sak1 sak2 : Nat)
    (hwake : sendReqWup env.wupa = some a ∨
      (sendReqWup env.wupa = none ∧ sendReqWup env.reqa = some a))
    (hac1 : env.ac1 = some (CR95HF_RSP_DATA, p)) (hp : 5 ≤ p.length)
    (hsel1 : selectCL1 env.sel1 = some sak1) :
    (p.getD 0 0 ≠ ISO14443A_CT →
      (iso14443aGetUID env u0 a0).ok = true ∧
      (iso14443aGetUID env u0 a0).uidLen = 4 ∧
      (iso14443aGetUID env u0 a0).uid 0 = p.getD 0 0 ∧
      (iso14443aGetUID env u0 a0).uid 1 = p.getD 1 0 ∧
      (iso14443aGetUID env u0 a0).uid 2 = p.getD 2 0 ∧
      (iso14443aGetUID env u0 a0).uid 3 = p.getD 3 0 ∧
      (iso14443aGetUID env u0 a0).sak = sak1 ∧
      ((iso14443aGetUID env u0 a0).sent.all fun e => !e.isCascade2) = true) ∧
    (p.getD 0 0 = ISO14443A_CT →
      env.ac2 = some (CR95HF_RSP_DATA, q) → 5 ≤ q.length →
      selectCL2 env.sel2 = some sak2 →
      (iso14443aGetUID env u0 a0).ok = true ∧
      (iso14443aGetUID env u0 a0).uidLen = 7 ∧
      (iso14443aGetUID env u0 a0).uid 0 = p.getD 1 0 ∧
      (iso14443aGetUID env u0 a0).uid 1 = p.getD 2 0 ∧
      (iso14443aGetUID env u0 a0).uid 2 = p.getD 3 0 ∧
      (iso14443aGetUID env u0 a0).uid 3 = q.getD 0 0 ∧
      (iso14443aGetUID env u0 a0).uid 4 = q.getD 1 0 ∧
      (iso14443aGetUID env u0 a0).uid 5 = q.getD 2 0 ∧
      (iso14443aGetUID env u0 a0).uid 6 = q.getD 3 0 ∧
      (iso14443aGetUID env u0 a0).sak = sak2) := by
  constructor
  · intro hct
    rcases iso_reduces env u0 a0 a hwake with he | he <;>
      (rw [he, afterWake_eq_4byte env u0 a _ p sak1 hac1 hp hsel1 hct]
       exact ⟨rfl, rfl, by simp [upd], by simp [upd], by simp [upd], by simp [upd], rfl,
         by simp [Exchange.isCascade2]⟩)
  · intro hct hac2 hq hsel2
    rcases iso_reduces env u0 a0 a hwake with he | he <;>
      (rw [he, afterWake_eq_7byte env u0 a _ p q sak1 sak2 hac1 hp hsel1 hct hac2 hq hsel2]
       exact ⟨rfl, rfl, by simp [upd], by simp [upd], by simp [upd], by simp [upd],
         by simp [upd], by simp [upd], by simp [upd], rfl⟩)

/-- Claim C1 witness: a single-size tag with candidate [1,2,3,4,4] and SAK 8
yields uidLen 4, uid 1 2 3 4, sak 8 and no cascade-2 exchange. -/
theorem c1_cascade_branching_witness :
    (([1, 2, 3, 4, 4] : List Nat).getD 0 0 ≠ ISO14443A_CT) ∧
    ((iso14443aGetUID envSingleTag (fun _ => 0) (0, 0)).ok = true ∧
      (iso14443aGetUID envSingleTag (fun _ => 0) (0, 0)).uidLen = 4 ∧
      (iso14443aGetUID envSingleTag (fun _ => 0) (0, 0)).uid 0 = 1 ∧
      (iso14443aGetUID envSingleTag (fun _ => 0) (0, 0)).uid 1 = 2 ∧
      (iso14443aGetUID envSingleTag (fun _ => 0) (0, 0)).uid 2 = 3 ∧
      (iso14443aGetUID envSingleTag (fun _ => 0) (0, 0)).uid 3 = 4 ∧
      (iso14443aGetUID envSingleTag (fun _ => 0) (0, 0)).sak = 8 ∧
      ((iso14443aGetUID envSingleTag (fun _ => 0) (0, 0)).sent.all
        fun e => !e.isCascade2) = true) := by
  refine ⟨by decide, ?_⟩
  exact (c1_cascade_branching envSingleTag (fun _ => 0) (0, 0) (4, 0) [1, 2, 3, 4, 4] []
    8 0 (Or.inl (by decide)) (by decide) (by decide) (by decide)).1 (by decide)

/-- Claim C2 (code bug): the frame builder silently truncates instead of
failing: buildSendRecv on a 35-byte RF payload yields a frame whose length
byte claims 36 payload bytes while only 30 payload bytes are present (the
flags byte is dropped as well), so the length-byte invariant is violated and
no construction error is raised. -/
theorem c2_frame_truncation_eval :
    (CR95HF_Frame.buildSendRecv (List.replicate 35 170) 40).data.getD 1 0 = 36 ∧
    (CR95HF_Frame.buildSendRecv (List.replicate 35 170) 40).data.length - 2 = 30 ∧
    ¬((CR95HF_Frame.buildSendRecv (List.replicate 35 170) 40).data.getD 1 0 =
      (CR95HF_Frame.buildSendRecv (List.replicate 35 170) 40).data.length - 2) := by
  decide

/-- Claim C3: readResponse shares one timeout budget, measured from the start
of the call, across the status-code stage, the length-byte stage and the
payload stage: the call succeeds exactly when every needed byte arrives within
the budget (and then delivers the whole response), and fails with no result as
soon as the cumulative latency exceeds the budget at any stage. -/
theorem c3_readResponse_shared_timeout (lenIn T t0 c t1 L : Nat)
    (rest : List (Nat × Nat)) (hlen : L ≤ rest.length) :
    ((readResponse lenIn ((t0, c) :: (t1, L) :: rest) T).isSome ↔
      (t0 ≤ T ∧ t1 ≤ T ∧ ∀ x ∈ rest.take L, x.1 ≤ T)) ∧
    (t0 ≤ T → t1 ≤ T → (∀ x ∈ rest.take L, x.1 ≤ T) →
      readResponse lenIn ((t0, c) :: (t1, L) :: rest) T =
        some (c, (rest.take L).map Prod.snd, L)) := by
  constructor
  · constructor
    · intro hsome
      by_cases h0 : t0 ≤ T
      · by_cases h1 : t1 ≤ T
        · cases hrp : readPayload T L rest with
          | none => simp [readResponse, h0, h1, hrp] at hsome
          | some bs =>
            exact ⟨h0, h1, (readPayload_isSome T L rest hlen).1 (by simp [hrp])⟩
        · simp [readResponse, h0, h1] at hsome
      · simp [readResponse, h0] at hsome
    · rintro ⟨h0, h1, hall⟩
      simp [readResponse, h0, h1, readPayload_eq T L rest hlen hall]
  · intro h0 h1 hall
    have hmap : ((rest.take L).map Prod.snd).length = L := by
      rw [List.length_map, List.length_take]
      omega
    simp [readResponse, h0, h1, readPayload_eq T L rest hlen hall, hmap]
    all_goals exact hlen

/-- Claim C3 witness: a response trickling in with its last byte arriving
exactly at the 10 ms budget is accepted whole. -/
theorem c3_readResponse_shared_timeout_witness :
    (2 ≤ ([(9, 5), (10, 6)] : List (Nat × Nat)).length) ∧
    readResponse 16 [(3, 128), (7, 2), (9, 5), (10, 6)] 10 = some (128, [5, 6], 2) := by
  refine ⟨by decide, ?_⟩
  have h := (c3_readResponse_shared_timeout 16 10 3 128 7 2 [(9, 5), (10, 6)]
    (by decide)).2 (by decide) (by decide) (by decide)
  simpa using h

/-- Claim C4: discovery sends WUPA first; REQA is sent only when WUPA yields
no valid data response; a valid data response to the REQA fallback lets
discovery proceed (and succeed, given a good cascade-1 exchange); when
neither wake variant yields a valid response the call fails with only the two
wake frames sent. -/
theorem c4_wake_fallback (env : Env) (u0 : Nat → Nat) (a0 : Nat × Nat)
    (q p : List Nat) (sak1 : Nat) :
    (∃ rest, (iso14443aGetUID env u0 a0).sent = Exchange.wupa :: rest) ∧
    ((∃ a, sendReqWup env.wupa = some a) →
      Exchange.reqa ∉ (iso14443aGetUID env u0 a0).sent) ∧
    (sendReqWup env.wupa = none → env.reqa = some (CR95HF_RSP_DATA, q) →
      2 ≤ q.length →
      Exchange.ac1 ∈ (iso14443aGetUID env u0 a0).sent ∧
      (env.ac1 = some (CR95HF_RSP_DATA, p) → 5 ≤ p.length →
        p.getD 0 0 ≠ ISO14443A_CT → selectCL1 env.sel1 = some sak1 →
        (iso14443aGetUID env u0 a0).ok = true)) ∧
    (sendReqWup env.wupa = none → sendReqWup env.reqa = none →
      (iso14443aGetUID env u0 a0).ok = false ∧
      (iso14443aGetUID env u0 a0).sent = [Exchange.wupa, Exchange.reqa]) := by
  refine ⟨?_, ?_, ?_, ?_⟩
  · cases hw : sendReqWup env.wupa with
    | some a =>
      obtain ⟨s2, hs, _, _⟩ := afterWake_sent_structure env u0 a [Exchange.wupa]
      refine ⟨s2, ?_⟩
      rw [show iso14443aGetUID env u0 a0 = afterWake env u0 a [Exchange.wupa] by
        simp [iso14443aGetUID, hw], hs]
      rfl
    | none =>
      cases hr : sendReqWup env.reqa with
      | some a =>
        obtain ⟨s2, hs, _, _⟩ :=
          afterWake_sent_structure env u0 a [Exchange.wupa, Exchange.reqa]
        refine ⟨Exchange.reqa :: s2, ?_⟩
        rw [show iso14443aGetUID env u0 a0 =
            afterWake env u0 a [Exchange.wupa, Exchange.reqa] by
          simp [iso14443aGetUID, hw, hr], hs]
        rfl
      | none =>
        exact ⟨[Exchange.reqa], by simp [iso14443aGetUID, hw, hr]⟩
  · rintro ⟨a, ha⟩ hmem
    obtain ⟨s2, hs, hall, _⟩ := afterWake_sent_structure env u0 a [Exchange.wupa]
    rw [show iso14443aGetUID env u0 a0 = afterWake env u0 a [Exchange.wupa] by
      simp [iso14443aGetUID, ha], hs] at hmem
    rw [List.all_eq_true] at hall
    rcases List.mem_append.mp hmem with h | h
    · simp at h
    · have hbad := hall _ h
      simp [Exchange.isWake] at hbad
  · intro hw hr hq
    have hra : sendReqWup env.reqa = some (q.getD 0 0, q.getD 1 0) := by
      rw [hr]
      simp [sendReqWup, hq]
    have he : iso14443aGetUID env u0 a0 =
        afterWake env u0 (q.getD 0 0, q.getD 1 0) [Exchange.wupa, Exchange.reqa] := by
      simp [iso14443aGetUID, hw, hra]
    constructor
    · obtain ⟨s2, hs, _, hac⟩ := afterWake_sent_structure env u0 (q.getD 0 0, q.getD 1 0)
        [Exchange.wupa, Exchange.reqa]
      rw [he, hs]
      exact List.mem_append_right _ hac
    · intro hac1 hp hct hsel1
      rw [he, afterWake_eq_4byte env u0 (q.getD 0 0, q.getD 1 0)
        [Exchange.wupa, Exchange.reqa] p sak1 hac1 hp hsel1 hct]
  · intro hw hr
    constructor <;> simp [iso14443aGetUID, hw, hr]

/-- Claim C4 witness: WUPA success sends no REQA; a REQA fallback run reaches
anticollision and succeeds; with no tag, the call fails after exactly the two
wake frames. -/
theorem c4_wake_fallback_witness :
    Exchange.reqa ∉ (iso14443aGetUID envSingleTag (fun _ => 0) (0, 0)).sent ∧
    Exchange.ac1 ∈ (iso14443aGetUID envFallbackTag (fun _ => 0) (0, 0)).sent ∧
    (iso14443aGetUID envFallbackTag (fun _ => 0) (0, 0)).ok = true ∧
    (iso14443aGetUID envNoTag (fun _ => 0) (0, 0)).ok = false ∧
    (iso14443aGetUID envNoTag (fun _ => 0) (0, 0)).sent =
      [Exchange.wupa, Exchange.reqa] := by
  have h1 := (c4_wake_fallback envSingleTag (fun _ => 0) (0, 0) [] [] 0).2.1
    ⟨(4, 0), by decide⟩
  have h2 := (c4_wake_fallback envFallbackTag (fun _ => 0) (0, 0) [68, 0]
    [1, 2, 3, 4, 4] 8).2.2.1 (by decide) (by decide) (by decide)
  have h3 := (c4_wake_fallback envNoTag (fun _ => 0) (0, 0) [] [] 0).2.2.2
    (by decide) (by decide)
  exact ⟨h1, h2.1, h2.2 (by decide) (by decide) (by decide) (by decide), h3.1, h3.2⟩

/-- Claim C5: a cascade-1 anticollision response with data status but fewer
than 5 payload bytes makes the discovery call fail at once, with no select
frame (of either cascade level) sent in that call. -/
theorem c5_short_anticoll_fails (env : Env) (u0 : Nat → Nat) (a0 a : Nat × Nat)
    (p : List Nat)
    (hwake : sendReqWup env.wupa = some a ∨
      (sendReqWup env.wupa = none ∧ sendReqWup env.reqa = some a))
    (hac1 : env.ac1 = some (CR95HF_RSP_DATA, p)) (hshort : p.length < 5) :
    (iso14443aGetUID env u0 a0).ok = false ∧
    ((iso14443aGetUID env u0 a0).sent.all fun e => !e.isSelect) = true := by
  have hA : anticollCL1 env.ac1 = none := by
    rw [hac1]
    simp only [anticollCL1]
    rw [if_neg (fun h => absurd h.2 (by omega))]
  rcases iso_reduces env u0 a0 a hwake with he | he <;>
    rw [he] <;>
    simp [afterWake, hA, Exchange.isSelect]

/-- Claim C5 witness: a 3-byte data response at cascade-1 anticollision fails
the call with no select frame sent. -/
theorem c5_short_anticoll_fails_witness :
    (iso14443aGetUID envShortAnticoll (fun _ => 0) (0, 0)).ok = false ∧
    ((iso14443aGetUID envShortAnticoll (fun _ => 0) (0, 0)).sent.all
      fun e => !e.isSelect) = true := by
  exact c5_short_anticoll_fails envShortAnticoll (fun _ => 0) (0, 0) (4, 0) [1, 2, 3]
    (Or.inl (by decide)) (by decide) (by decide)

/-- Claim C6: a select response carrying zero payload bytes is rejected at
both cascade levels, whatever its status code (success 0x00, data 0x80 or any
other value). -/
theorem c6_select_empty_payload_rejected (code : Nat) :
    selectCL1 (some (code, [])) = none ∧ selectCL2 (some (code, [])) = none := by
  simp [selectCL1, selectCL2]

/-- Claim C7 (code bug): readResponse never consults the caller-supplied
capacity (the entry value of len) before writing: with an 8-byte caller
buffer, a response whose length byte is 16 makes the payload loop write all
16 bytes, past the end of the buffer. -/
theorem c7_capacity_ignored_eval :
    readResponse 8 overflowStream 100 =
      some (128, [1, 2, 3, 4, 5, 6, 7, 8, 9, 10, 11, 12, 13, 14, 15, 16], 16) ∧
    8 < 16 := by
  exact ⟨rfl, by omega⟩

/-- Claim C8: a 5-byte cascade-1 data response is accepted verbatim and the
cascade-1 select frame carrying exactly those 5 bytes is sent, with no
condition whatsoever on the check byte (the XOR of the identifier bytes is
never computed). -/
theorem c8_check_byte_not_validated (env : Env) (u0 : Nat → Nat) (a0 a : Nat × Nat)
    (p : List Nat)
    (hwake : sendReqWup env.wupa = some a ∨
      (sendReqWup env.wupa = none ∧ sendReqWup env.reqa = some a))
    (hac1 : env.ac1 = some (CR95HF_RSP_DATA, p)) (hlen5 : p.length = 5) :
    anticollCL1 env.ac1 = some p ∧
    Exchange.sel1 p ∈ (iso14443aGetUID env u0 a0).sent := by
  have htake : p.take 5 = p := by
    rw [← hlen5, List.take_length]
  have hA : anticollCL1 env.ac1 = some p := by
    rw [hac1]
    simp [anticollCL1, hlen5, htake]
  refine ⟨hA, ?_⟩
  rcases iso_reduces env u0 a0 a hwake with he | he <;>
    rw [he] <;>
    exact afterWake_sel1_mem env u0 a _ p hA

/-- Claim C8 witness: candidate [1,2,3,4,255], whose check byte 255 differs
from the XOR 4 of its identifier bytes, is accepted and its select frame is
sent. -/
theorem c8_check_byte_not_validated_witness :
    Nat.xor (Nat.xor (Nat.xor 1 2) 3) 4 ≠ 255 ∧
    anticollCL1 envBadBCC.ac1 = some [1, 2, 3, 4, 255] ∧
    Exchange.sel1 [1, 2, 3, 4, 255] ∈ (iso14443aGetUID envBadBCC (fun _ => 0) (0, 0)).sent := by
  refine ⟨by decide, ?_⟩
  exact c8_check_byte_not_validated envBadBCC (fun _ => 0) (0, 0) (4, 0) [1, 2, 3, 4, 255]
    (Or.inl (by decide)) (by decide) (by decide)

/-- Claim C9 counterexample: when both wake variants fail, the call returns
false and lastATQA keeps whatever value it had before the call (it depends on
the prior value, so it is not overwritten), contradicting the claim that
every call overwrites the diagnostic field. -/
theorem c9_lastATQA_counterexample :
    (iso14443aGetUID envNoTag (fun _ => 0) (170, 187)).lastATQA = (170, 187) ∧
    (iso14443aGetUID envNoTag (fun _ => 0) (1, 2)).lastATQA = (1, 2) ∧
    (iso14443aGetUID envNoTag (fun _ => 0) (170, 187)).ok = false := by
  exact ⟨rfl, rfl, rfl⟩

/-- Claim C9 amended: lastATQA is overwritten with the observed ATQA on every
call in which a wake command (WUPA, or REQA as fallback) yields a valid ATQA
response — including calls that fail later — while on calls where neither
wake variant succeeds the previous value persists. -/
theorem c9_lastATQA_amended (env : Env) (u0 : Nat → Nat) (a0 a : Nat × Nat) :
    (sendReqWup env.wupa = some a → (iso14443aGetUID env u0 a0).lastATQA = a) ∧
    (sendReqWup env.wupa = none → sendReqWup env.reqa = some a →
      (iso14443aGetUID env u0 a0).lastATQA = a) ∧
    (sendReqWup env.wupa = none → sendReqWup env.reqa = none →
      (iso14443aGetUID env u0 a0).lastATQA = a0) := by
  refine ⟨?_, ?_, ?_⟩
  · intro hw
    rw [show iso14443aGetUID env u0 a0 = afterWake env u0 a [Exchange.wupa] by
      simp [iso14443aGetUID, hw]]
    exact afterWake_lastATQA env u0 a _
  · intro hw hr
    rw [show iso14443aGetUID env u0 a0 =
        afterWake env u0 a [Exchange.wupa, Exchange.reqa] by
      simp [iso14443aGetUID, hw, hr]]
    exact afterWake_lastATQA env u0 a _
  · intro hw hr
    simp [iso14443aGetUID, hw, hr]

/-- Claim C9 amended witness: a successful wake overwrites lastATQA with the
observed ATQA; a call with no wake response leaves the prior value. -/
theorem c9_lastATQA_amended_witness :
    (iso14443aGetUID envSingleTag (fun _ => 0) (9, 9)).lastATQA = (4, 0) ∧
    (iso14443aGetUID envNoTag (fun _ => 0) (9, 9)).lastATQA = (9, 9) := by
  exact ⟨(c9_lastATQA_amended envSingleTag (fun _ => 0) (9, 9) (4, 0)).1 (by decide),
    (c9_lastATQA_amended envNoTag (fun _ => 0) (9, 9) (4, 0)).2.2 (by decide) (by decide)⟩

/-- Claim C10: when the cascade-1 candidate starts with 0x88 and the
cascade-2 anticollision or select step fails, the call returns false with
uidLen 0 and sak 0, but uid cells 0-2 have already been overwritten with
bytes 1-3 of the cascade-1 candidate. -/
theorem c10_cascade2_failure_partial_write (env : Env) (u0 : Nat → Nat)
    (a0 a : Nat × Nat) (p : List Nat) (sak1 : Nat)
    (hwake : sendReqWup env.wupa = some a ∨
      (sendReqWup env.wupa = none ∧ sendReqWup env.reqa = some a))
    (hac1 : env.ac1 = some (CR95HF_RSP_DATA, p)) (hp : 5 ≤ p.length)
    (hct : p.getD 0 0 = ISO14443A_CT)
    (hsel1 : selectCL1 env.sel1 = some sak1)
    (hfail : anticollCL2 env.ac2 = none ∨ selectCL2 env.sel2 = none) :
    (iso14443aGetUID env u0 a0).ok = false ∧
    (iso14443aGetUID env u0 a0).uidLen = 0 ∧
    (iso14443aGetUID env u0 a0).sak = 0 ∧
    (iso14443aGetUID env u0 a0).uid 0 = p.getD 1 0 ∧
    (iso14443aGetUID env u0 a0).uid 1 = p.getD 2 0 ∧
    (iso14443aGetUID env u0 a0).uid 2 = p.getD 3 0 := by
  rcases iso_reduces env u0 a0 a hwake with he | he <;>
    (rw [he]
     obtain ⟨hok, hulen, hsak, huid⟩ :=
       afterWake_cl2_failure env u0 a _ p sak1 hac1 hp hsel1 hct hfail
     exact ⟨hok, hulen, hsak, by rw [huid]; simp [upd], by rw [huid]; simp [upd],
       by rw [huid]; simp [upd]⟩)

/-- Claim C10 witness: cascade candidate [0x88,2,3,4,0x8F] with the cascade-2
anticollision timing out leaves uid cells 0-2 holding 2, 3, 4 while the call
reports failure with uidLen 0 and sak 0. -/
theorem c10_cascade2_failure_partial_write_witness :
    (iso14443aGetUID envCascade2Fails (fun _ => 0) (0, 0)).ok = false ∧
    (iso14443aGetUID envCascade2Fails (fun _ => 0) (0, 0)).uidLen = 0 ∧
    (iso14443aGetUID envCascade2Fails (fun _ => 0) (0, 0)).sak = 0 ∧
    (iso14443aGetUID envCascade2Fails (fun _ => 0) (0, 0)).uid 0 = 2 ∧
    (iso14443aGetUID envCascade2Fails (fun _ => 0) (0, 0)).uid 1 = 3 ∧
    (iso14443aGetUID envCascade2Fails (fun _ => 0) (0, 0)).uid 2 = 4 := by
  exact c10_cascade2_failure_partial_write envCascade2Fails (fun _ => 0) (0, 0) (4, 0)
    [136, 2, 3, 4, 143] 8 (Or.inl (by decide)) (by decide) (by decide) (by decide)
    (by decide) (Or.inl (by decide))

end CR95HF
